import Mathlib

/-!
Verification of the gooptional library (generic Optional plus typed
OptionalInt / OptionalFloat / OptionalString variants) against its
specification.  The Go code is shallowly embedded: interface values become
the inductive type GoVal, methods become pure functions, the mutating Scan
methods become explicit state passing, and Go panics or errors become
Except results.  Sources: optional.go, optional_int.go, optional_float.go,
optional_string.go, and the alternate revision of optional.go that carries
the generic MapToInt / MapToFloat / MapToString methods.
-/

/-- Universe of Go interface values that the library can receive.
`nil` is the nil interface; `ptr` is any pointer shaped value (pointer,
channel, map, function, slice) boxed in an interface, carrying the address
of its underlying representation, with address 0 standing for the null
pointer.  float64 payloads are modelled as rationals (the library never
computes with them, it only stores and compares them). -/
inductive GoVal where
  | nil : GoVal
  | str (s : String) : GoVal
  | int (n : Int) : GoVal
  | float (q : Rat) : GoVal
  | bool (b : Bool) : GoVal
  | ptr (addr : Nat) : GoVal
  deriving DecidableEq, Repr

/-- Go error values relevant to the library, compared by identity. -/
inductive GoErr where
  | errNotPresent : GoErr
  | convertError : GoErr
  deriving DecidableEq, Repr

/-- Go runtime faults (panics raised by the runtime or reflect, not by the
library itself). -/
inductive GoPanic where
  | isZeroOnZeroValue : GoPanic
  deriving DecidableEq, Repr

/-- From optional.go: `errNotPresent = fmt.Errorf("No value present")`,
the singleton not-present fault. -/
def errNotPresent : GoErr := GoErr.errNotPresent

/-- Modelled from the spec: the declaration of `notPresentError`, the value
raised by MustGet of the typed variants, is not among the provided source
files (only its uses in optional_int.go, optional_float.go and
optional_string.go are).  Section 7 of the spec requires a single fixed
singleton not-present fault for all variants, and the tests in
optional_string_test.go compare the value recovered from a typed MustGet
fault with errNotPresent by identity, so it is the same singleton. -/
def notPresentError : GoErr := errNotPresent

/-- Hex digit character, as produced by Go fmt for pointer addresses. -/
def hexDigitChar (n : Nat) : Char :=
  if n < 10 then Char.ofNat (48 + n) else Char.ofNat (87 + n)

/-- Hex digits of n, least significant first.  The first argument is fuel,
always called with fuel ≥ n so that the recursion fully unfolds. -/
def hexDigitsRevAux : Nat → Nat → List Char
  | _, 0 => []
  | 0, _ + 1 => []
  | fuel + 1, n + 1 => hexDigitChar ((n + 1) % 16) :: hexDigitsRevAux fuel ((n + 1) / 16)

/-- Hexadecimal rendering of a natural number, as Go fmt renders pointer
addresses after the 0x prefix. -/
def hexStr (n : Nat) : String :=
  if n = 0 then String.mk [Char.ofNat 48] else String.mk (hexDigitsRevAux n n).reverse

/-- Model of Go `fmt.Sprintf("%p", value)`.  Pointer shaped values render
as 0x followed by the hex address; every other value is rejected by the
`%p` verb and renders in the `%!p(TYPE=VALUE)` bad-verb form, which in
particular never equals the string `0x0`. -/
def goSprintfP : GoVal → String
  | GoVal.nil => "%!p(<nil>)"
  | GoVal.str s => "%!p(string=" ++ s ++ ")"
  | GoVal.int n => "%!p(int=" ++ toString n ++ ")"
  | GoVal.float q => "%!p(float64=" ++ toString q ++ ")"
  | GoVal.bool b => "%!p(bool=" ++ toString b ++ ")"
  | GoVal.ptr addr => "0x" ++ hexStr addr

/-- From optional.go lines 28-34: IsNil returns true if a value is nil.
A string value is checked first and is never nil; otherwise the value is
nil if it equals the nil interface or its `%p` rendering is `0x0`. -/
def IsNil (value : GoVal) : Bool :=
  match value with
  | GoVal.str _ => false
  | v => decide (v = GoVal.nil) || decide (goSprintfP v = "0x0")

/-- Model of reflect.Value.IsZero on a valid (non-nil-interface) value:
whether the value is the zero value of its type.  The nil case is
unreachable through reflectValueIsZero, which faults first. -/
def goIsZero : GoVal → Bool
  | GoVal.nil => true
  | GoVal.str s => decide (s = "")
  | GoVal.int n => decide (n = 0)
  | GoVal.float q => decide (q = 0)
  | GoVal.bool b => !b
  | GoVal.ptr addr => decide (addr = 0)

/-- Model of `reflect.ValueOf(v).IsZero()`: when v is a nil interface,
reflect.ValueOf yields the zero Value and IsZero faults with
`reflect: call of reflect.Value.IsZero on zero Value`. -/
def reflectValueIsZero : GoVal → Except GoPanic Bool
  | GoVal.nil => Except.error GoPanic.isZeroOnZeroValue
  | v => Except.ok (goIsZero v)

/-- From optional.go lines 14-17: the generic Optional record. -/
structure Optional where
  value : GoVal
  present : Bool
  deriving DecidableEq, Repr

/-- The zero value `Optional{}`: nil interface payload, not present. -/
def Optional.empty : Optional := { value := GoVal.nil, present := false }

/-- From optional.go lines 39-53: Of returns an empty Optional when no
value or a nil value is provided, otherwise an Optional wrapping the first
value.  Extra arguments are ignored. -/
def Of (value : List GoVal) : Optional :=
  match value with
  | [] => Optional.empty
  | v :: _ =>
    if IsNil v then Optional.empty
    else { value := v, present := true }

example : Of [GoVal.int 3] = { value := GoVal.int 3, present := true } := by decide
example : Of [GoVal.ptr 0] = Optional.empty := by decide
example : Of [GoVal.str ("0x0")] = { value := GoVal.str ("0x0"), present := true } := by decide
example : Of [GoVal.nil] = Optional.empty := by decide

/-- From optional.go lines 105-111: Filter returns this Optional only if it
is present and the predicate holds for the value, else an empty Optional. -/
def Optional.Filter (o : Optional) (predicate : GoVal → Bool) : Optional :=
  if o.present && predicate o.value then o else Optional.empty

/-- From optional.go lines 116-122: FilterNot, the inverted Filter. -/
def Optional.FilterNot (o : Optional) (predicate : GoVal → Bool) : Optional :=
  if o.present && (!predicate o.value) then o else Optional.empty

/-- From optional.go lines 126-128: Get returns the wrapped value and the
present flag. -/
def Optional.Get (o : Optional) : GoVal × Bool :=
  (o.value, o.present)

/-- From optional.go lines 131-137: MustGet returns the unwrapped value and
faults with errNotPresent if it is not present. -/
def Optional.MustGet (o : Optional) : Except GoErr GoVal :=
  if !o.present then Except.error errNotPresent else Except.ok o.value

/-- From optional.go lines 172-179: presence queries. -/
def Optional.IsEmpty (o : Optional) : Bool := !o.present

def Optional.IsPresent (o : Optional) : Bool := o.present

/-- From optional.go lines 187-204: Map applies f when present; a nil
mapper result yields empty; a zero mapper result yields empty only when the
variadic zeroValIsEmpty flag is passed as true; otherwise the result is
wrapped through Of.  The variadic bool parameter is a list; the source
reads `(len(zeroValIsEmpty) > 0) && zeroValIsEmpty[0]`, i.e. the head or
false. -/
def Optional.Map (o : Optional) (f : GoVal → GoVal) (zeroValIsEmpty : List Bool) : Optional :=
  if o.present then
    let v := f o.value
    if IsNil v then Optional.empty
    else if zeroValIsEmpty.headD false && goIsZero v then Optional.empty
    else Of [v]
  else Optional.empty

/-- From optional.go lines 207-213: FlatMap returns f applied to the value
when present, verbatim, else an empty Optional. -/
def Optional.FlatMap (o : Optional) (f : GoVal → Optional) : Optional :=
  if o.present then f o.value else Optional.empty

/-- From optional.go lines 216-222: OrElse. -/
def Optional.OrElse (o : Optional) (value : GoVal) : GoVal :=
  if o.present then o.value else value

/-- From optional.go lines 248-252: Scan stores src as the value and sets
present by the plain comparison `src != nil`; it always succeeds.  The
receiver state is fully overwritten, so the prior state o is unused. -/
def Optional.Scan (_o : Optional) (src : GoVal) : Except GoErr Unit × Optional :=
  (Except.ok (), { value := src, present := !decide (src = GoVal.nil) })

/-- From optional.go lines 257-263: Value yields (nil, nil) when absent and
(value, nil) when present. -/
def Optional.Value (o : Optional) : GoVal × Option GoErr :=
  if !o.present then (GoVal.nil, none) else (o.value, none)

/-- From optional_int.go lines 16-19: the OptionalInt record. -/
structure OptionalInt where
  value : Int
  present : Bool
  deriving DecidableEq, Repr

/-- The zero value `OptionalInt{}`. -/
def OptionalInt.empty : OptionalInt := { value := 0, present := false }

/-- From optional_int.go lines 24-33: OfInt wraps the first value if one is
provided (always present, no nil check), else yields the empty
OptionalInt. -/
def OfInt (value : List Int) : OptionalInt :=
  match value with
  | [] => OptionalInt.empty
  | v :: _ => { value := v, present := true }

/-- From optional_float.go lines 16-19: the OptionalFloat record, float64
payload modelled as Rat. -/
structure OptionalFloat where
  value : Rat
  present : Bool
  deriving DecidableEq, Repr

def OptionalFloat.empty : OptionalFloat := { value := 0, present := false }

/-- From optional_float.go lines 24-33: OfFloat. -/
def OfFloat (value : List Rat) : OptionalFloat :=
  match value with
  | [] => OptionalFloat.empty
  | v :: _ => { value := v, present := true }

/-- From optional_string.go lines 16-19: the OptionalString record. -/
structure OptionalString where
  value : String
  present : Bool
  deriving DecidableEq, Repr

def OptionalString.empty : OptionalString := { value := "", present := false }

/-- From optional_string.go lines 24-33: OfString. -/
def OfString (value : List String) : OptionalString :=
  match value with
  | [] => OptionalString.empty
  | v :: _ => { value := v, present := true }

/-- From the alternate optional.go revision lines 235-241: the generic
MapToInt wraps the mapper result with OfInt when present, with no zero
value detection, else yields an empty OptionalInt. -/
def Optional.MapToInt (o : Optional) (f : GoVal → Int) : OptionalInt :=
  if o.present then OfInt [f o.value] else OptionalInt.empty

/-- From the alternate optional.go revision lines 215-221: the generic
MapToFloat, same shape as MapToInt. -/
def Optional.MapToFloat (o : Optional) (f : GoVal → Rat) : OptionalFloat :=
  if o.present then OfFloat [f o.value] else OptionalFloat.empty

/-- From the alternate optional.go revision lines 255-261: the generic
MapToString, same shape as MapToInt. -/
def Optional.MapToString (o : Optional) (f : GoVal → String) : OptionalString :=
  if o.present then OfString [f o.value] else OptionalString.empty

/-- From optional_int.go lines 84-90. -/
def OptionalInt.Filter (o : OptionalInt) (predicate : Int → Bool) : OptionalInt :=
  if o.present && predicate o.value then o else OptionalInt.empty

/-- From optional_int.go lines 95-101. -/
def OptionalInt.FilterNot (o : OptionalInt) (predicate : Int → Bool) : OptionalInt :=
  if o.present && (!predicate o.value) then o else OptionalInt.empty

def OptionalInt.IsEmpty (o : OptionalInt) : Bool := !o.present

def OptionalInt.IsPresent (o : OptionalInt) : Bool := o.present

/-- From optional_int.go lines 143-149. -/
def OptionalInt.FlatMap (o : OptionalInt) (f : Int → OptionalInt) : OptionalInt :=
  if o.present then f o.value else OptionalInt.empty

/-- From optional_int.go lines 154-160: Map wraps the mapped value through
OfInt when present (always present). -/
def OptionalInt.Map (o : OptionalInt) (f : Int → Int) : OptionalInt :=
  if o.present then OfInt [f o.value] else OptionalInt.empty

/-- From optional_int.go lines 163-169. -/
def OptionalInt.FlatMapTo (o : OptionalInt) (f : Int → Optional) : Optional :=
  if o.present then f o.value else Optional.empty

/-- From optional_int.go lines 176-185: MapTo calls
`reflect.ValueOf(v).IsZero()` on the mapper result; when the result is not
zero it is wrapped through Of, else an empty Optional is returned.  When
the mapper returns a nil interface, reflect faults (see
reflectValueIsZero). -/
def OptionalInt.MapTo (o : OptionalInt) (f : Int → GoVal) : Except GoPanic Optional :=
  if o.present then
    let v := f o.value
    match reflectValueIsZero v with
    | Except.error p => Except.error p
    | Except.ok z => if !z then Except.ok (Of [v]) else Except.ok Optional.empty
  else Except.ok Optional.empty

/-- From optional_int.go lines 199-205. -/
def OptionalInt.MapToFloat (o : OptionalInt) (f : Int → Rat) : OptionalFloat :=
  if o.present then OfFloat [f o.value] else OptionalFloat.empty

/-- From optional_int.go lines 219-225. -/
def OptionalInt.MapToString (o : OptionalInt) (f : Int → String) : OptionalString :=
  if o.present then OfString [f o.value] else OptionalString.empty

/-- From optional_int.go lines 228-234: MustGet faults with
notPresentError when absent. -/
def OptionalInt.MustGet (o : OptionalInt) : Except GoErr Int :=
  if !o.present then Except.error notPresentError else Except.ok o.value

/-- From optional_int.go lines 237-243. -/
def OptionalInt.OrElse (o : OptionalInt) (value : Int) : Int :=
  if o.present then o.value else value

/-- From optional_float.go lines 176-185: MapTo of the float variant, same
shape as OptionalInt.MapTo. -/
def OptionalFloat.MapTo (o : OptionalFloat) (f : Rat → GoVal) : Except GoPanic Optional :=
  if o.present then
    let v := f o.value
    match reflectValueIsZero v with
    | Except.error p => Except.error p
    | Except.ok z => if !z then Except.ok (Of [v]) else Except.ok Optional.empty
  else Except.ok Optional.empty

/-- From optional_float.go: Map, same shape as OptionalInt.Map. -/
def OptionalFloat.Map (o : OptionalFloat) (f : Rat → Rat) : OptionalFloat :=
  if o.present then OfFloat [f o.value] else OptionalFloat.empty

def OptionalFloat.Filter (o : OptionalFloat) (predicate : Rat → Bool) : OptionalFloat :=
  if o.present && predicate o.value then o else OptionalFloat.empty

def OptionalFloat.IsEmpty (o : OptionalFloat) : Bool := !o.present

/-- From optional_float.go lines 228-234. -/
def OptionalFloat.MustGet (o : OptionalFloat) : Except GoErr Rat :=
  if !o.present then Except.error notPresentError else Except.ok o.value

/-- From optional_string.go lines 176-185: MapTo of the string variant,
same shape as OptionalInt.MapTo. -/
def OptionalString.MapTo (o : OptionalString) (f : String → GoVal) : Except GoPanic Optional :=
  if o.present then
    let v := f o.value
    match reflectValueIsZero v with
    | Except.error p => Except.error p
    | Except.ok z => if !z then Except.ok (Of [v]) else Except.ok Optional.empty
  else Except.ok Optional.empty

/-- From optional_string.go: Map, same shape as OptionalInt.Map. -/
def OptionalString.Map (o : OptionalString) (f : String → String) : OptionalString :=
  if o.present then OfString [f o.value] else OptionalString.empty

def OptionalString.Filter (o : OptionalString) (predicate : String → Bool) : OptionalString :=
  if o.present && predicate o.value then o else OptionalString.empty

def OptionalString.IsEmpty (o : OptionalString) : Bool := !o.present

/-- From optional_string.go lines 228-234. -/
def OptionalString.MustGet (o : OptionalString) : Except GoErr String :=
  if !o.present then Except.error notPresentError else Except.ok o.value

/-- Decimal digit test and value, used by the strconv parsing models. -/
def allDecDigits (cs : List Char) : Bool :=
  cs.all Char.isDigit

def decValue (cs : List Char) : Nat :=
  cs.foldl (fun acc c => acc * 10 + (c.toNat - 48)) 0

/-- Model of strconv.ParseInt(s, 10, 64): optional sign followed by a
nonempty run of decimal digits.  The 64-bit overflow bound is not modelled
(no claim exercises it). -/
def goParseInt (s : String) : Option Int :=
  match s.data with
  | [] => none
  | c :: rest =>
    let sign : Int := if c = '-' then -1 else 1
    let digits := if c = '-' || c = '+' then rest else c :: rest
    match digits with
    | [] => none
    | _ :: _ => if allDecDigits digits then some (sign * (decValue digits : Int)) else none

/-- Model of strconv.ParseFloat for the plain decimal forms
sign digits [ . digits ].  Exponent, hex, inf and nan spellings are outside
the value universe exercised here. -/
def goParseFloat (s : String) : Option Rat :=
  match s.data with
  | [] => none
  | c :: rest =>
    let sign : Rat := if c = '-' then -1 else 1
    let body := if c = '-' || c = '+' then rest else c :: rest
    let intPart := body.takeWhile (fun d => !decide (d = '.'))
    match body.dropWhile (fun d => !decide (d = '.')) with
    | [] =>
      if !intPart.isEmpty && allDecDigits intPart then some (sign * (decValue intPart : Rat))
      else none
    | _ :: frac =>
      if (!intPart.isEmpty || !frac.isEmpty) && allDecDigits intPart && allDecDigits frac then
        some (sign * ((decValue intPart : Rat) + (decValue frac : Rat) / ((10 : Rat) ^ frac.length)))
      else none

/-- sql.NullInt64 after a Scan: the Int64 field and the Valid flag. -/
structure NullInt64 where
  Int64 : Int
  Valid : Bool
  deriving DecidableEq, Repr

structure NullFloat64 where
  Float64 : Rat
  Valid : Bool
  deriving DecidableEq, Repr

structure NullString where
  String : String
  Valid : Bool
  deriving DecidableEq, Repr

/-- Model of sql.NullInt64.Scan / database sql convertAssign into int64:
nil yields the invalid zero record with no error; int64 is stored directly;
float64 and string go through the text round trip
strconv.ParseInt(asString(src)), so only integral floats and decimal
strings succeed; bool renders as true/false and never parses; pointer
shaped driver values are unsupported. -/
def nullInt64Scan : GoVal → Except GoErr NullInt64
  | GoVal.nil => Except.ok { Int64 := 0, Valid := false }
  | GoVal.int n => Except.ok { Int64 := n, Valid := true }
  | GoVal.float q =>
    if q.den = 1 then Except.ok { Int64 := q.num, Valid := true }
    else Except.error GoErr.convertError
  | GoVal.str s =>
    match goParseInt s with
    | some n => Except.ok { Int64 := n, Valid := true }
    | none => Except.error GoErr.convertError
  | GoVal.bool _ => Except.error GoErr.convertError
  | GoVal.ptr _ => Except.error GoErr.convertError

/-- Model of sql.NullFloat64.Scan: nil yields the invalid zero record;
float64 and int64 convert exactly; strings parse through ParseFloat; bool
and pointer shaped values fail. -/
def nullFloat64Scan : GoVal → Except GoErr NullFloat64
  | GoVal.nil => Except.ok { Float64 := 0, Valid := false }
  | GoVal.float q => Except.ok { Float64 := q, Valid := true }
  | GoVal.int n => Except.ok { Float64 := (n : Rat), Valid := true }
  | GoVal.str s =>
    match goParseFloat s with
    | some q => Except.ok { Float64 := q, Valid := true }
    | none => Except.error GoErr.convertError
  | GoVal.bool _ => Except.error GoErr.convertError
  | GoVal.ptr _ => Except.error GoErr.convertError

/-- Rendering of a float64 by database sql asString; the exact text is
never inspected by any claim, so the Rat default rendering stands in for
strconv.FormatFloat. -/
def goFormatFloat (q : Rat) : String := toString q

/-- Model of sql.NullString.Scan: nil yields the invalid empty record;
strings are stored directly; numeric and bool driver values render through
asString with no failure; pointer shaped values are unsupported. -/
def nullStringScan : GoVal → Except GoErr NullString
  | GoVal.nil => Except.ok { String := "", Valid := false }
  | GoVal.str s => Except.ok { String := s, Valid := true }
  | GoVal.int n => Except.ok { String := toString n, Valid := true }
  | GoVal.float q => Except.ok { String := goFormatFloat q, Valid := true }
  | GoVal.bool b => Except.ok { String := cond b ("true") ("false"), Valid := true }
  | GoVal.ptr _ => Except.error GoErr.convertError

/-- From optional_int.go lines 267-276: Scan converts through a fresh
sql.NullInt64; on conversion failure the error is returned with the
receiver untouched; on success the Int64 field is stored (the Valid flag is
ignored) and present is set to true unconditionally. -/
def OptionalInt.Scan (o : OptionalInt) (src : GoVal) : Except GoErr Unit × OptionalInt :=
  match nullInt64Scan src with
  | Except.error e => (Except.error e, o)
  | Except.ok val => (Except.ok (), { value := val.Int64, present := true })

/-- From optional_float.go lines 267-276: same shape with sql.NullFloat64. -/
def OptionalFloat.Scan (o : OptionalFloat) (src : GoVal) : Except GoErr Unit × OptionalFloat :=
  match nullFloat64Scan src with
  | Except.error e => (Except.error e, o)
  | Except.ok val => (Except.ok (), { value := val.Float64, present := true })

/-- From optional_string.go lines 267-276: same shape with sql.NullString. -/
def OptionalString.Scan (o : OptionalString) (src : GoVal) : Except GoErr Unit × OptionalString :=
  match nullStringScan src with
  | Except.error e => (Except.error e, o)
  | Except.ok val => (Except.ok (), { value := val.String, present := true })

/-- From optional_int.go lines 288-294: Value. -/
def OptionalInt.Value (o : OptionalInt) : GoVal × Option GoErr :=
  if !o.present then (GoVal.nil, none) else (GoVal.int o.value, none)

/-- From optional_float.go lines 288-294: Value. -/
def OptionalFloat.Value (o : OptionalFloat) : GoVal × Option GoErr :=
  if !o.present then (GoVal.nil, none) else (GoVal.float o.value, none)

/-- From optional_string.go lines 288-294: Value. -/
def OptionalString.Value (o : OptionalString) : GoVal × Option GoErr :=
  if !o.present then (GoVal.nil, none) else (GoVal.str o.value, none)

example : (OptionalInt.empty.Scan (GoVal.str ("12"))).2 = { value := 12, present := true } := by decide
example : nullInt64Scan (GoVal.bool true) = Except.error GoErr.convertError := rfl
example : (OptionalInt.empty.Scan GoVal.nil).2 = { value := 0, present := true } := by decide

/-! Characterization of the nil detection of Of: helper lemmas about the
`%p` rendering model. -/

theorem string_data_append (s t : String) : (s ++ t).data = s.data ++ t.data := rfl

theorem string_ne_of_head_ne (s t : String) (h : s.data.head? ≠ t.data.head?) : s ≠ t :=
  fun he => h (by rw [he])

theorem head_of_prefix (pre mid post : String) (c : Char) (cs : List Char)
    (h : pre.data = c :: cs) : ((pre ++ mid) ++ post).data.head? = some c := by
  rw [string_data_append, string_data_append, h]
  rfl

theorem goSprintfP_int_ne_null (n : Int) : goSprintfP (GoVal.int n) ≠ "0x0" := by
  apply string_ne_of_head_ne
  rw [show goSprintfP (GoVal.int n) = ("%!p(int=" ++ toString n) ++ ")" from rfl,
    head_of_prefix ("%!p(int=") (toString n) (")") '%' _ rfl]
  decide

theorem goSprintfP_float_ne_null (q : Rat) : goSprintfP (GoVal.float q) ≠ "0x0" := by
  apply string_ne_of_head_ne
  rw [show goSprintfP (GoVal.float q) = ("%!p(float64=" ++ toString q) ++ ")" from rfl,
    head_of_prefix ("%!p(float64=") (toString q) (")") '%' _ rfl]
  decide

theorem goSprintfP_bool_ne_null (b : Bool) : goSprintfP (GoVal.bool b) ≠ "0x0" := by
  apply string_ne_of_head_ne
  rw [show goSprintfP (GoVal.bool b) = ("%!p(bool=" ++ toString b) ++ ")" from rfl,
    head_of_prefix ("%!p(bool=") (toString b) (")") '%' _ rfl]
  decide

theorem hexDigitsRevAux_eq_nil (fuel n : Nat) :
    hexDigitsRevAux fuel n = [] ↔ (n = 0 ∨ fuel = 0) := by
  match fuel, n with
  | _, 0 => simp [hexDigitsRevAux]
  | 0, _ + 1 => simp [hexDigitsRevAux]
  | f + 1, k + 1 => simp [hexDigitsRevAux]

theorem hexDigitChar_eq_zero : ∀ k, k < 16 → (hexDigitChar k = '0' ↔ k = 0) := by decide

theorem hexStr_eq_zero (a : Nat) (h : (hexStr a).data = ['0']) : a = 0 := by
  by_cases h0 : a = 0
  · exact h0
  · exfalso
    obtain ⟨m, rfl⟩ : ∃ m, a = m + 1 := ⟨a - 1, by omega⟩
    rw [hexStr, if_neg h0] at h
    change (hexDigitsRevAux (m + 1) (m + 1)).reverse = ['0'] at h
    have hl := congrArg List.reverse h
    rw [List.reverse_reverse] at hl
    simp only [List.reverse_cons, List.reverse_nil, List.nil_append] at hl
    rw [show hexDigitsRevAux (m + 1) (m + 1)
        = hexDigitChar ((m + 1) % 16) :: hexDigitsRevAux m ((m + 1) / 16) from rfl] at hl
    rw [List.cons.injEq] at hl
    rcases (hexDigitsRevAux_eq_nil m ((m + 1) / 16)).mp hl.2 with hdiv | hm
    · have hlt : m + 1 < 16 := by omega
      have hmod : (m + 1) % 16 = m + 1 := by omega
      rw [hmod] at hl
      have := (hexDigitChar_eq_zero (m + 1) hlt).mp hl.1
      omega
    · subst hm
      exact absurd hl.1 (by decide)

theorem goSprintfP_ptr_eq_null (a : Nat) : goSprintfP (GoVal.ptr a) = "0x0" ↔ a = 0 := by
  constructor
  · intro h
    apply hexStr_eq_zero
    have hd := congrArg String.data h
    rw [show goSprintfP (GoVal.ptr a) = "0x" ++ hexStr a from rfl, string_data_append] at hd
    rw [show ("0x" : String).data = ['0', 'x'] from rfl] at hd
    rw [show ("0x0" : String).data = ['0', 'x', '0'] from rfl] at hd
    simpa using hd
  · intro h
    subst h
    decide

/-- The nil detection of IsNil holds exactly for the nil interface and for
pointer shaped values with null underlying representation; in particular no
string value, `0x0` included, is ever nil. -/
theorem isNil_iff (v : GoVal) : IsNil v = true ↔ (v = GoVal.nil ∨ v = GoVal.ptr 0) := by
  cases v with
  | nil => simp [IsNil]
  | str s => simp [IsNil]
  | int n => simp [IsNil, goSprintfP_int_ne_null n]
  | float q => simp [IsNil, goSprintfP_float_ne_null q]
  | bool b => simp [IsNil, goSprintfP_bool_ne_null b]
  | ptr a => simp [IsNil, goSprintfP_ptr_eq_null a]

/-- reflect.ValueOf(v).IsZero() on any value other than the nil interface
is the plain zero test, with no fault. -/
theorem reflectValueIsZero_of_ne_nil (v : GoVal) (h : v ≠ GoVal.nil) :
    reflectValueIsZero v = Except.ok (goIsZero v) := by
  cases v with
  | nil => exact absurd rfl h
  | str s => rfl
  | int n => rfl
  | float q => rfl
  | bool b => rfl
  | ptr a => rfl

/-! The absent-implies-zero-value invariant of the data model, and its
preservation lemmas. -/

/-- Invariant of the generic variant: an absent Optional holds the nil
interface, the zero value of its payload type. -/
def Optional.Inv (o : Optional) : Prop := o.present = false → o.value = GoVal.nil

def OptionalInt.Inv (o : OptionalInt) : Prop := o.present = false → o.value = 0

def OptionalFloat.Inv (o : OptionalFloat) : Prop := o.present = false → o.value = 0

def OptionalString.Inv (o : OptionalString) : Prop := o.present = false → o.value = ""

/-- An if-then-else preserves any predicate its branches satisfy. -/
theorem ite_pred {α : Type} (P : α → Prop) {c : Prop} [Decidable c] {a b : α}
    (ha : P a) (hb : P b) : P (if c then a else b) := by
  by_cases h : c
  · rwa [if_pos h]
  · rwa [if_neg h]

theorem optional_empty_inv : Optional.empty.Inv := fun _ => rfl

theorem optionalInt_empty_inv : OptionalInt.empty.Inv := fun _ => rfl

theorem optionalFloat_empty_inv : OptionalFloat.empty.Inv := fun _ => rfl

theorem optionalString_empty_inv : OptionalString.empty.Inv := fun _ => rfl

theorem of_inv (args : List GoVal) : (Of args).Inv := by
  match args with
  | [] => exact optional_empty_inv
  | v :: _ => exact ite_pred Optional.Inv optional_empty_inv (fun hc => nomatch hc)

theorem ofInt_inv (ns : List Int) : (OfInt ns).Inv := by
  match ns with
  | [] => exact optionalInt_empty_inv
  | v :: _ => exact fun hc => nomatch hc

theorem ofFloat_inv (qs : List Rat) : (OfFloat qs).Inv := by
  match qs with
  | [] => exact optionalFloat_empty_inv
  | v :: _ => exact fun hc => nomatch hc

theorem ofString_inv (ss : List String) : (OfString ss).Inv := by
  match ss with
  | [] => exact optionalString_empty_inv
  | v :: _ => exact fun hc => nomatch hc

theorem generic_scan_inv (o : Optional) (src : GoVal) : ((o.Scan src).2).Inv := by
  intro hc
  simp only [Optional.Scan, Bool.not_eq_false, decide_eq_true_eq] at hc
  simpa [Optional.Scan] using hc

theorem int_scan_inv (oi : OptionalInt) (src : GoVal) (hoi : oi.Inv) :
    ((oi.Scan src).2).Inv := by
  unfold OptionalInt.Scan
  cases h : nullInt64Scan src with
  | error e => exact hoi
  | ok val => exact fun hc => nomatch hc

theorem float_scan_inv (ofl : OptionalFloat) (src : GoVal) (hofl : ofl.Inv) :
    ((ofl.Scan src).2).Inv := by
  unfold OptionalFloat.Scan
  cases h : nullFloat64Scan src with
  | error e => exact hofl
  | ok val => exact fun hc => nomatch hc

theorem string_scan_inv (os : OptionalString) (src : GoVal) (hos : os.Inv) :
    ((os.Scan src).2).Inv := by
  unfold OptionalString.Scan
  cases h : nullStringScan src with
  | error e => exact hos
  | ok val => exact fun hc => nomatch hc

theorem int_mapTo_inv (oi : OptionalInt) (g : Int → GoVal) :
    (match oi.MapTo g with | Except.ok r => r.Inv | Except.error _ => True) := by
  unfold OptionalInt.MapTo
  dsimp only []
  by_cases h : oi.present = true
  · rw [if_pos h]
    cases hz : reflectValueIsZero (g oi.value) with
    | error p => trivial
    | ok z =>
      cases z with
      | false => exact of_inv _
      | true => exact optional_empty_inv
  · rw [if_neg h]
    exact optional_empty_inv

theorem float_mapTo_inv (ofl : OptionalFloat) (g : Rat → GoVal) :
    (match ofl.MapTo g with | Except.ok r => r.Inv | Except.error _ => True) := by
  unfold OptionalFloat.MapTo
  dsimp only []
  by_cases h : ofl.present = true
  · rw [if_pos h]
    cases hz : reflectValueIsZero (g ofl.value) with
    | error p => trivial
    | ok z =>
      cases z with
      | false => exact of_inv _
      | true => exact optional_empty_inv
  · rw [if_neg h]
    exact optional_empty_inv

theorem string_mapTo_inv (os : OptionalString) (g : String → GoVal) :
    (match os.MapTo g with | Except.ok r => r.Inv | Except.error _ => True) := by
  unfold OptionalString.MapTo
  dsimp only []
  by_cases h : os.present = true
  · rw [if_pos h]
    cases hz : reflectValueIsZero (g os.value) with
    | error p => trivial
    | ok z =>
      cases z with
      | false => exact of_inv _
      | true => exact optional_empty_inv
  · rw [if_neg h]
    exact optional_empty_inv

/-! Claim theorems. -/

/-- C1: Of with one argument yields an empty Optional exactly when the
argument is nil-equivalent (the true nil interface, or a value whose
underlying pointer representation is the null pointer); otherwise it is
present and holds that value; string arguments, the string `0x0` included,
are never treated as nil. -/
theorem Of_one_arg_nil_detection (v : GoVal) :
    ((Of [v]).present = false ↔ (v = GoVal.nil ∨ v = GoVal.ptr 0))
    ∧ ((v = GoVal.nil ∨ v = GoVal.ptr 0) → Of [v] = Optional.empty)
    ∧ (¬(v = GoVal.nil ∨ v = GoVal.ptr 0) → Of [v] = { value := v, present := true })
    ∧ (∀ s : String, Of [GoVal.str s] = { value := GoVal.str s, present := true }) := by
  have hstr : ∀ s : String, Of [GoVal.str s] = { value := GoVal.str s, present := true } := by
    intro s
    simp [Of, IsNil]
  by_cases hnil : v = GoVal.nil ∨ v = GoVal.ptr 0
  · have hIs : IsNil v = true := (isNil_iff v).mpr hnil
    refine ⟨?_, fun _ => ?_, fun hc => absurd hnil hc, hstr⟩
    · simp [Of, hIs, Optional.empty, hnil]
    · simp [Of, hIs]
  · have hIs : IsNil v = false := by
      cases hIs2 : IsNil v with
      | false => rfl
      | true => exact absurd ((isNil_iff v).mp hIs2) hnil
    refine ⟨?_, fun hc => absurd hc hnil, fun _ => ?_, hstr⟩
    · simp [Of, hIs, hnil]
    · simp [Of, hIs]

/-- C1 witness: the string `0x0` is wrapped as present; the null pointer
representation yields empty. -/
theorem Of_one_arg_nil_detection_witness :
    Of [GoVal.str ("0x0")] = { value := GoVal.str ("0x0"), present := true }
    ∧ Of [GoVal.ptr 0] = Optional.empty :=
  ⟨(Of_one_arg_nil_detection (GoVal.str ("0x0"))).2.2.1 (by decide),
    (Of_one_arg_nil_detection (GoVal.ptr 0)).2.1 (Or.inr rfl)⟩

/-- C2 counterexample: the generic MapToInt applies no zero-value
detection: on a present Optional a mapper returning 0 yields a present
OptionalInt holding 0, not an empty one as the claim states. -/
theorem generic_MapToInt_zero_not_empty :
    ((Of [GoVal.int 5]).MapToInt (fun _ => 0)).IsEmpty = false
    ∧ (Of [GoVal.int 5]).MapToInt (fun _ => 0) = { value := 0, present := true } :=
  ⟨by decide, by decide⟩

/-- C2 amended: the generic MapToInt / MapToFloat / MapToString wrap the
mapper result directly through OfInt / OfFloat / OfString, so the result is
always present when the receiver is present, zero mapper results included;
only the typed variants' MapTo treats a (non-nil) zero mapper result as
empty. -/
theorem generic_MapTo_no_zero_detection (o : Optional) (fi : GoVal → Int) (ff : GoVal → Rat)
    (fs : GoVal → String) (oi : OptionalInt) (g : Int → GoVal)
    (ho : o.present = true) (hoi : oi.present = true)
    (hz : goIsZero (g oi.value) = true) (hnn : g oi.value ≠ GoVal.nil) :
    o.MapToInt fi = { value := fi o.value, present := true }
    ∧ o.MapToFloat ff = { value := ff o.value, present := true }
    ∧ o.MapToString fs = { value := fs o.value, present := true }
    ∧ oi.MapTo g = Except.ok Optional.empty := by
  refine ⟨?_, ?_, ?_, ?_⟩
  · simp [Optional.MapToInt, OfInt, ho]
  · simp [Optional.MapToFloat, OfFloat, ho]
  · simp [Optional.MapToString, OfString, ho]
  · simp [OptionalInt.MapTo, hoi, reflectValueIsZero_of_ne_nil _ hnn, hz]

/-- C2 amended witness. -/
theorem generic_MapTo_no_zero_detection_witness :
    (Of [GoVal.int 7]).MapToInt (fun _ => 0) = { value := 0, present := true }
    ∧ OptionalInt.MapTo { value := 1, present := true } (fun _ => GoVal.int 0)
        = Except.ok Optional.empty := by
  have h := generic_MapTo_no_zero_detection (Of [GoVal.int 7]) (fun _ => 0) (fun _ => 0)
      (fun _ => "") { value := 1, present := true } (fun _ => GoVal.int 0)
      (by decide) rfl (by decide) (by decide)
  exact ⟨h.1, h.2.2.2⟩

/-- C3: evaluation of the code at the failing input.  The typed variants'
MapTo computes reflect.ValueOf(v).IsZero() on the mapper result; when the
mapper returns a nil interface, reflect.ValueOf yields the zero Value and
IsZero faults, so MapTo is not total, contrary to the claim and to the
MapTo documentation (a zero-value result is documented to yield an empty
Optional, and nil is the zero value of the interface type). -/
theorem typed_MapTo_nil_result_faults :
    OptionalInt.MapTo { value := 1, present := true } (fun _ => GoVal.nil)
      = Except.error GoPanic.isZeroOnZeroValue
    ∧ OptionalFloat.MapTo { value := 1, present := true } (fun _ => GoVal.nil)
      = Except.error GoPanic.isZeroOnZeroValue
    ∧ OptionalString.MapTo { value := ("a"), present := true } (fun _ => GoVal.nil)
      = Except.error GoPanic.isZeroOnZeroValue :=
  ⟨rfl, rfl, rfl⟩

/-- C4: after a successful Scan of SQL NULL every typed variant is present
with the zero value of its payload type, while the generic variant is
absent. -/
theorem typed_Scan_null_yields_present_zero (oi : OptionalInt) (ofl : OptionalFloat)
    (os : OptionalString) (og : Optional) :
    oi.Scan GoVal.nil = (Except.ok (), { value := 0, present := true })
    ∧ ofl.Scan GoVal.nil = (Except.ok (), { value := 0, present := true })
    ∧ os.Scan GoVal.nil = (Except.ok (), { value := "", present := true })
    ∧ og.Scan GoVal.nil = (Except.ok (), { value := GoVal.nil, present := false }) :=
  ⟨rfl, rfl, rfl, rfl⟩

/-- C5: for the generic Map, an absent receiver yields empty without
invoking the mapper (the result does not depend on it); a nil mapper result
yields empty; a non-nil mapper result is wrapped through the constructor by
default, even when it is a zero value; a zero mapper result yields empty
exactly when the variadic zero-value-is-empty flag is passed as true. -/
theorem generic_Map_rules (o a : Optional) (f g : GoVal → GoVal) (flags : List Bool)
    (hp : o.present = true) (hab : a.present = false) :
    (a.Map f flags = Optional.empty ∧ a.Map f flags = a.Map g flags)
    ∧ (IsNil (f o.value) = true → o.Map f flags = Optional.empty)
    ∧ (IsNil (f o.value) = false →
        o.Map f [] = Of [f o.value] ∧ (o.Map f []).present = true)
    ∧ (IsNil (f o.value) = false → goIsZero (f o.value) = true →
        o.Map f [true] = Optional.empty) := by
  refine ⟨⟨?_, ?_⟩, fun hn => ?_, fun hn => ⟨?_, ?_⟩, fun hn hz => ?_⟩
  · simp [Optional.Map, hab]
  · simp [Optional.Map, hab]
  · simp [Optional.Map, hp, hn]
  · simp [Optional.Map, hp, hn]
  · simp [Optional.Map, Of, hp, hn]
  · simp [Optional.Map, hp, hn, hz]

/-- C5 witness: a present Optional of 1 mapped to the zero value 0 stays
present by default and is filtered to empty under the flag; an absent
Optional maps to empty. -/
theorem generic_Map_rules_witness :
    Optional.empty.Map (fun _ => GoVal.int 0) [] = Optional.empty
    ∧ ({ value := GoVal.int 1, present := true } : Optional).Map (fun _ => GoVal.int 0) []
        = Of [GoVal.int 0]
    ∧ ({ value := GoVal.int 1, present := true } : Optional).Map (fun _ => GoVal.int 0) [true]
        = Optional.empty := by
  have h := generic_Map_rules { value := GoVal.int 1, present := true } Optional.empty
      (fun _ => GoVal.int 0) (fun _ => GoVal.int 0) [] rfl rfl
  exact ⟨h.1.1, (h.2.2.1 (by decide)).1, h.2.2.2 (by decide) (by decide)⟩

/-- C6 counterexample: for the typed variant OptionalInt, Scan of SQL NULL
succeeds, but Value then yields the int 0, which is not equivalent to the
scanned raw value nil. -/
theorem typed_Scan_Value_roundtrip_fails_on_null :
    (OptionalInt.empty.Scan GoVal.nil).1 = Except.ok ()
    ∧ (OptionalInt.empty.Scan GoVal.nil).2.Value = (GoVal.int 0, (none : Option GoErr))
    ∧ GoVal.int 0 ≠ GoVal.nil :=
  ⟨rfl, rfl, by decide⟩

/-- C6 amended: the Scan then Value round trip holds for the generic
variant at every raw value, nil included; for the typed variants it holds
for raw values already of the target type, while scanning SQL NULL
succeeds and Value then yields the zero value of the type, not NULL. -/
theorem Scan_Value_roundtrip (og : Optional) (r : GoVal) (oi : OptionalInt) (n : Int)
    (ofl : OptionalFloat) (q : Rat) (os : OptionalString) (s : String) :
    ((og.Scan r).1 = Except.ok () ∧ (og.Scan r).2.Value = (r, (none : Option GoErr)))
    ∧ (oi.Scan (GoVal.int n)).2.Value = (GoVal.int n, (none : Option GoErr))
    ∧ (ofl.Scan (GoVal.float q)).2.Value = (GoVal.float q, (none : Option GoErr))
    ∧ (os.Scan (GoVal.str s)).2.Value = (GoVal.str s, (none : Option GoErr))
    ∧ (oi.Scan GoVal.nil).2.Value = (GoVal.int 0, (none : Option GoErr)) := by
  refine ⟨⟨rfl, ?_⟩, rfl, rfl, rfl, rfl⟩
  by_cases h : r = GoVal.nil
  · subst h; rfl
  · simp [Optional.Scan, Optional.Value, h]

/-- C7: MustGet on an absent instance of any variant fails with the one
singleton not-present fault, the same value for all variants, so an
identity comparison of the recovered fault with the singleton succeeds; on
a present instance MustGet returns the wrapped value. -/
theorem MustGet_singleton_fault (o p : Optional) (oi : OptionalInt) (ofl : OptionalFloat)
    (os : OptionalString)
    (ho : o.present = false) (hoi : oi.present = false) (hof : ofl.present = false)
    (hos : os.present = false) (hp : p.present = true) :
    o.MustGet = Except.error errNotPresent
    ∧ oi.MustGet = Except.error errNotPresent
    ∧ ofl.MustGet = Except.error errNotPresent
    ∧ os.MustGet = Except.error errNotPresent
    ∧ notPresentError = errNotPresent
    ∧ p.MustGet = Except.ok p.value := by
  simp [Optional.MustGet, OptionalInt.MustGet, OptionalFloat.MustGet, OptionalString.MustGet,
    notPresentError, ho, hoi, hof, hos, hp]

/-- C7 witness. -/
theorem MustGet_singleton_fault_witness :
    Optional.empty.MustGet = Except.error errNotPresent
    ∧ OptionalInt.empty.MustGet = Except.error errNotPresent
    ∧ ({ value := GoVal.int 3, present := true } : Optional).MustGet
        = Except.ok (GoVal.int 3) := by
  have h := MustGet_singleton_fault Optional.empty { value := GoVal.int 3, present := true }
      OptionalInt.empty OptionalFloat.empty OptionalString.empty rfl rfl rfl rfl rfl
  exact ⟨h.1, h.2.1, h.2.2.2.2.2⟩

/-- C8: the absent-implies-zero-value invariant is preserved by every
embedded operation of every variant, under the standing assumptions that
the inputs satisfy it (receivers, and the optionals produced by
caller-supplied FlatMap functions).  The immutability half of the claim is
by construction of the embedding: every operation except Scan is a pure
function of the receiver returning a new instance, and Scan is the only
operation modelled as a state transformer. -/
theorem invariant_preserved (args : List GoVal) (o : Optional) (p : GoVal → Bool)
    (f : GoVal → GoVal) (flags : List Bool) (fo : GoVal → Optional)
    (fi : GoVal → Int) (ff : GoVal → Rat) (fs : GoVal → String) (src : GoVal)
    (ns : List Int) (oi : OptionalInt) (pi2 : Int → Bool) (gi : Int → Int)
    (gio : Int → GoVal) (goi : Int → OptionalInt)
    (qs : List Rat) (ofl : OptionalFloat) (gq : Rat → Rat) (gqo : Rat → GoVal)
    (ss : List String) (os : OptionalString) (gs : String → String) (gso : String → GoVal)
    (ho : o.Inv) (hfo : ∀ x, (fo x).Inv) (hoi : oi.Inv) (hgoi : ∀ x, (goi x).Inv)
    (hofl : ofl.Inv) (hos : os.Inv) :
    Optional.empty.Inv ∧ (Of args).Inv
    ∧ (o.Filter p).Inv ∧ (o.FilterNot p).Inv
    ∧ (o.Map f flags).Inv ∧ (o.FlatMap fo).Inv
    ∧ (o.MapToInt fi).Inv ∧ (o.MapToFloat ff).Inv ∧ (o.MapToString fs).Inv
    ∧ ((o.Scan src).2).Inv
    ∧ (OfInt ns).Inv ∧ (oi.Filter pi2).Inv ∧ (oi.FilterNot pi2).Inv
    ∧ (oi.Map gi).Inv ∧ (oi.FlatMap goi).Inv
    ∧ (match oi.MapTo gio with | Except.ok r => r.Inv | Except.error _ => True)
    ∧ ((oi.Scan src).2).Inv
    ∧ (OfFloat qs).Inv ∧ (ofl.Map gq).Inv
    ∧ (match ofl.MapTo gqo with | Except.ok r => r.Inv | Except.error _ => True)
    ∧ ((ofl.Scan src).2).Inv
    ∧ (OfString ss).Inv ∧ (os.Map gs).Inv
    ∧ (match os.MapTo gso with | Except.ok r => r.Inv | Except.error _ => True)
    ∧ ((os.Scan src).2).Inv := by
  refine ⟨optional_empty_inv, of_inv args,
    ite_pred Optional.Inv ho optional_empty_inv,
    ite_pred Optional.Inv ho optional_empty_inv,
    ?_,
    ite_pred Optional.Inv (hfo o.value) optional_empty_inv,
    ite_pred OptionalInt.Inv (ofInt_inv _) optionalInt_empty_inv,
    ite_pred OptionalFloat.Inv (ofFloat_inv _) optionalFloat_empty_inv,
    ite_pred OptionalString.Inv (ofString_inv _) optionalString_empty_inv,
    generic_scan_inv o src,
    ofInt_inv ns,
    ite_pred OptionalInt.Inv hoi optionalInt_empty_inv,
    ite_pred OptionalInt.Inv hoi optionalInt_empty_inv,
    ite_pred OptionalInt.Inv (ofInt_inv _) optionalInt_empty_inv,
    ite_pred OptionalInt.Inv (hgoi oi.value) optionalInt_empty_inv,
    int_mapTo_inv oi gio,
    int_scan_inv oi src hoi,
    ofFloat_inv qs,
    ite_pred OptionalFloat.Inv (ofFloat_inv _) optionalFloat_empty_inv,
    float_mapTo_inv ofl gqo,
    float_scan_inv ofl src hofl,
    ofString_inv ss,
    ite_pred OptionalString.Inv (ofString_inv _) optionalString_empty_inv,
    string_mapTo_inv os gso,
    string_scan_inv os src hos⟩
  exact ite_pred Optional.Inv
    (ite_pred Optional.Inv optional_empty_inv
      (ite_pred Optional.Inv optional_empty_inv (of_inv _)))
    optional_empty_inv

/-- C8 witness. -/
theorem invariant_preserved_witness :
    (Of [GoVal.int 4]).Inv ∧ (Optional.empty.Map (fun _ => GoVal.nil) []).Inv
    ∧ ((OptionalInt.empty.Scan (GoVal.bool true)).2).Inv := by
  have h := invariant_preserved [GoVal.int 4] Optional.empty (fun _ => true)
      (fun _ => GoVal.nil) [] (fun _ => Optional.empty)
      (fun _ => 0) (fun _ => 0) (fun _ => "") (GoVal.bool true)
      [] OptionalInt.empty (fun _ => true) (fun _ => 0)
      (fun _ => GoVal.int 0) (fun _ => OptionalInt.empty)
      [] OptionalFloat.empty (fun _ => 0) (fun _ => GoVal.int 0)
      [] OptionalString.empty (fun _ => "") (fun _ => GoVal.int 0)
      (fun _ => rfl) (fun _ _ => rfl) (fun _ => rfl) (fun _ _ => rfl)
      (fun _ => rfl) (fun _ => rfl)
  exact ⟨h.2.1, h.2.2.2.2.1, h.2.2.2.2.2.2.2.2.2.2.2.2.2.2.2.2.1⟩

/-- C9: when a typed Scan fails because the raw value cannot be coerced to
the target primitive type, the coercion error is returned and the receiver
keeps both its prior value and its prior present flag. -/
theorem typed_Scan_failure_leaves_receiver (oi : OptionalInt) (ofl : OptionalFloat)
    (os : OptionalString) (si sf ss : GoVal) (e1 e2 e3 : GoErr)
    (h1 : nullInt64Scan si = Except.error e1)
    (h2 : nullFloat64Scan sf = Except.error e2)
    (h3 : nullStringScan ss = Except.error e3) :
    oi.Scan si = (Except.error e1, oi)
    ∧ ofl.Scan sf = (Except.error e2, ofl)
    ∧ os.Scan ss = (Except.error e3, os) := by
  refine ⟨?_, ?_, ?_⟩
  · simp [OptionalInt.Scan, h1]
  · simp [OptionalFloat.Scan, h2]
  · simp [OptionalString.Scan, h3]

/-- C9 witness: a bool cannot coerce to int64 or float64, a pointer shaped
value cannot coerce to string; each failing Scan leaves the receiver as it
was, present or absent. -/
theorem typed_Scan_failure_leaves_receiver_witness :
    ({ value := 5, present := true } : OptionalInt).Scan (GoVal.bool true)
      = (Except.error GoErr.convertError, { value := 5, present := true })
    ∧ ({ value := 2, present := false } : OptionalFloat).Scan (GoVal.bool false)
      = (Except.error GoErr.convertError, { value := 2, present := false })
    ∧ ({ value := ("x"), present := true } : OptionalString).Scan (GoVal.ptr 1)
      = (Except.error GoErr.convertError, { value := ("x"), present := true }) :=
  typed_Scan_failure_leaves_receiver { value := 5, present := true }
    { value := 2, present := false } { value := ("x"), present := true }
    (GoVal.bool true) (GoVal.bool false) (GoVal.ptr 1)
    GoErr.convertError GoErr.convertError GoErr.convertError rfl rfl rfl

/-- C10: the generic Scan uses the plain `src != nil` test, so scanning an
interface-boxed nil pointer (pointer shaped value with null underlying
representation) yields a present Optional storing that value, whereas Of
applied to the same argument applies the nil-equivalence test and yields an
empty Optional. -/
theorem generic_Scan_boxed_nil_pointer (o : Optional) :
    (o.Scan (GoVal.ptr 0)).1 = Except.ok ()
    ∧ (o.Scan (GoVal.ptr 0)).2 = { value := GoVal.ptr 0, present := true }
    ∧ Of [GoVal.ptr 0] = Optional.empty
    ∧ (Of [GoVal.ptr 0]).present = false :=
  ⟨rfl, rfl, by decide, by decide⟩
